import Mathlib

/-!
# Formal model of the split-and-share-wise expense-splitting client

A shallow embedding of the data model and the client-side operations of the
expense-splitting application:

* the relational rows the client reads and writes (profiles, groups, expenses,
  expense participants, settlements, friendships);
* expense creation with equal split (`handleSubmit` in `AddExpense.tsx`);
* the dashboard balance aggregation (`fetchDashboardData` in the Dashboard page);
* the per-counterparty debt netting (`fetchDebtsAndSettlements` in `SettleUp.tsx`);
* settlement recording (`handleSettle` in `SettleUp.tsx`);
* friend requests (`addFriend` in the Friends page).

Monetary amounts are modelled as exact rationals (`ℚ`); the client stores
`DECIMAL(10,2)` values and manipulates them as JavaScript numbers.  Store
writes that can fail are given an explicit success flag, so that the
behaviour of each operation on a failed insert is part of the model.
-/

abbrev UserId := Nat
abbrev ExpenseId := Nat
abbrev GroupId := Nat

/-- A row of the `profiles` table, as selected by the client
(`id, full_name, email`). -/
structure Profile where
  id : UserId
  full_name : String
  email : String
deriving DecidableEq

/-- A row of the `groups` table (the fields the client uses). -/
structure GroupRow where
  id : GroupId
  name : String
deriving DecidableEq

/-- A row of the `expenses` table, as inserted by `AddExpense.handleSubmit`. -/
structure Expense where
  id : ExpenseId
  description : String
  amount : ℚ
  paid_by : UserId
  group_id : Option GroupId
deriving DecidableEq

/-- A row of the `expense_participants` table. -/
structure ExpenseParticipant where
  expense_id : ExpenseId
  user_id : UserId
  amount_owed : ℚ
  is_settled : Bool
deriving DecidableEq

/-- A row of the `settlements` table, as inserted by `SettleUp.handleSettle`. -/
structure Settlement where
  from_user : UserId
  to_user : UserId
  amount : ℚ
  description : String
  group_id : Option GroupId
deriving DecidableEq

/-- The `status` column of the `friendships` table
(`CHECK (status IN ('pending', 'accepted', 'blocked'))`). -/
inductive FriendStatus where
  | pending
  | accepted
  | blocked
deriving DecidableEq

/-- A row of the `friendships` table. -/
structure Friendship where
  user_id : UserId
  friend_id : UserId
  status : FriendStatus
deriving DecidableEq

/-- The store state visible to the client: one list per table. -/
structure AppState where
  profiles : List Profile
  groups : List GroupRow
  expenses : List Expense
  participants : List ExpenseParticipant
  settlements : List Settlement
  friendships : List Friendship
deriving DecidableEq

/-- Row lookup by primary key, modelling the foreign-key join from an
`expense_participants` row to its `expenses` row. -/
def findExpense (es : List Expense) (eid : ExpenseId) : Option Expense :=
  es.find? (fun e => decide (e.id = eid))

/-! ## Dashboard balance aggregation (`fetchDashboardData`) -/

/-- The rows of the first dashboard query: `expense_participants` filtered by
`user_id = self` and `is_settled = false`. -/
def owedRows (s : AppState) (self : UserId) : List ExpenseParticipant :=
  s.participants.filter (fun p => decide (p.user_id = self) && !p.is_settled)

/-- Whether a participant row joins (inner join) to an expense whose payer is
not `self`; this is the `expenses!inner(paid_by)` join together with the
`.neq('expenses.paid_by', self)` filter. -/
def paidBySomeoneElse (es : List Expense) (self : UserId)
    (p : ExpenseParticipant) : Bool :=
  match findExpense es p.expense_id with
  | some e => decide (e.paid_by ≠ self)
  | none => false

/-- The rows of the second dashboard query: participant rows of `self`, not
settled, whose expense was paid by someone else. -/
def owingRows (s : AppState) (self : UserId) : List ExpenseParticipant :=
  s.participants.filter (fun p =>
    decide (p.user_id = self) && !p.is_settled && paidBySomeoneElse s.expenses self p)

/-- `totalOwed` as computed by the dashboard:
`owedData.reduce((sum, item) => sum + Number(item.amount_owed), 0)`. -/
def total_owed (s : AppState) (self : UserId) : ℚ :=
  (owedRows s self).foldl (fun sum item => sum + item.amount_owed) 0

/-- `totalOwing` as computed by the dashboard. -/
def total_owing (s : AppState) (self : UserId) : ℚ :=
  (owingRows s self).foldl (fun sum item => sum + item.amount_owed) 0

/-- `net_balance: totalOwed - totalOwing`. -/
def net_balance (s : AppState) (self : UserId) : ℚ :=
  total_owed s self - total_owing s self

/-! ## Expense creation (`AddExpense.handleSubmit`) -/

/-- The form state read by `handleSubmit`.  `selectedGroup` is `none` when no
group is selected (the empty string), `amount` is `none` when the amount
string is empty and `some a` when it parses to the number `a` (note that the
string `"0"` is non-empty and parses to `0`). -/
structure ExpenseForm where
  selectedGroup : Option GroupId
  selectedParticipants : List UserId
  description : String
  amount : Option ℚ
deriving DecidableEq

/-- The user-visible outcome of a submission. -/
inductive SubmitOutcome where
  | validationError
  | storeError
  | success
deriving DecidableEq

/-- The participant rows built by `handleSubmit`:
one row per selected identity, each owing `amountPerPerson`, unsettled. -/
def mkParticipantRows (eid : ExpenseId) (ps : List UserId)
    (amountPerPerson : ℚ) : List ExpenseParticipant :=
  ps.map (fun participantId =>
    { expense_id := eid
      user_id := participantId
      amount_owed := amountPerPerson
      is_settled := false })

/-- `AddExpense.handleSubmit`.  Validation rejects an unselected group, an
empty participant list, an empty description or an empty amount string; it
does not examine the parsed amount's sign.  `newId` is the id the store
assigns to the inserted expense; `expenseInsertOk` / `participantsInsertOk`
say whether the two inserts succeed.  A failed first insert leaves the state
unchanged; a failed second insert leaves the inserted expense in place (the
error is caught, reported, and nothing is rolled back). -/
def handleSubmit (s : AppState) (self : UserId) (f : ExpenseForm)
    (newId : ExpenseId) (expenseInsertOk participantsInsertOk : Bool) :
    AppState × SubmitOutcome :=
  match f.selectedGroup, f.amount with
  | some gid, some amount =>
    if f.selectedParticipants.length = 0 || f.description = "" then
      (s, .validationError)
    else
      let participantCount : ℚ := (f.selectedParticipants.length : ℚ)
      let amountPerPerson : ℚ := amount / participantCount
      if !expenseInsertOk then (s, .storeError)
      else
        let expense : Expense :=
          { id := newId
            description := f.description
            amount := amount
            paid_by := self
            group_id := some gid }
        let s1 := { s with expenses := s.expenses ++ [expense] }
        if !participantsInsertOk then (s1, .storeError)
        else
          let rows := mkParticipantRows newId f.selectedParticipants amountPerPerson
          ({ s1 with participants := s1.participants ++ rows }, .success)
  | _, _ => (s, .validationError)

/-! ## Per-counterparty debt netting (`SettleUp.fetchDebtsAndSettlements`) -/

/-- An entry of the settle-up `debtMap` / `debts` list. -/
structure Debt where
  user_id : UserId
  full_name : String
  email : String
  amount : ℚ
  group_name : Option String
deriving DecidableEq

/-- The `groups(name)` projection joined onto an expense row. -/
def groupNameOf (s : AppState) (e : Expense) : Option String :=
  e.group_id.bind (fun gid => (s.groups.find? (fun g => decide (g.id = gid))).map (fun g => g.name))

/-- One `debtMap` update: JavaScript `Map` semantics — if the key is present,
add to the stored entry's `amount` (keeping its other fields); otherwise
append a fresh entry, preserving insertion order. -/
def updateDebtMap (m : List Debt) (pr : Profile) (amt : ℚ)
    (gname : Option String) : List Debt :=
  if m.any (fun d => decide (d.user_id = pr.id)) then
    m.map (fun d => if d.user_id = pr.id then { d with amount := d.amount + amt } else d)
  else
    m ++ [{ user_id := pr.id, full_name := pr.full_name, email := pr.email,
            amount := amt, group_name := gname }]

/-- The debt computation of `fetchDebtsAndSettlements`: two passes over the
unsettled participant rows.  The first pass walks the current user's own
unsettled rows, joins each to its expense (restricted to expenses paid by
someone else) and to the payer's profile, and adds the row's `amount_owed`
(positive) under the payer's key.  The second pass walks every unsettled row,
joins it to its expense restricted to expenses the current user paid and to
the participant's profile, and adds the negated `amount_owed` under the
participant's key.  Entries whose net amount is exactly zero are discarded. -/
def fetchDebts (s : AppState) (self : UserId) : List Debt :=
  let debtData := s.participants.filter (fun p =>
    decide (p.user_id = self) && !p.is_settled)
  let expenseIds := debtData.map (fun item => item.expense_id)
  let expenseData := s.expenses.filter (fun e =>
    expenseIds.contains e.id && decide (e.paid_by ≠ self))
  let payerIds := expenseData.map (fun e => e.paid_by)
  let payerData := s.profiles.filter (fun pr => payerIds.contains pr.id)
  let m1 : List Debt := debtData.foldl (fun m debtItem =>
    match expenseData.find? (fun e => decide (e.id = debtItem.expense_id)) with
    | none => m
    | some e =>
      match payerData.find? (fun pr => decide (pr.id = e.paid_by)) with
      | none => m
      | some payer => updateDebtMap m payer debtItem.amount_owed (groupNameOf s e)) []
  let owedData := s.participants.filter (fun p => !p.is_settled)
  let userExpenseIds := owedData.map (fun item => item.expense_id)
  let userExpenseData := s.expenses.filter (fun e =>
    userExpenseIds.contains e.id && decide (e.paid_by = self))
  let participantIds := owedData.map (fun item => item.user_id)
  let participantData := s.profiles.filter (fun pr => participantIds.contains pr.id)
  let m2 : List Debt := owedData.foldl (fun m owedItem =>
    match userExpenseData.find? (fun e => decide (e.id = owedItem.expense_id)) with
    | none => m
    | some e =>
      match participantData.find? (fun pr => decide (pr.id = owedItem.user_id)) with
      | none => m
      | some participant =>
        updateDebtMap m participant (-owedItem.amount_owed) (groupNameOf s e)) m1
  m2.filter (fun d => decide (d.amount ≠ 0))

/-! ## Settlement recording (`SettleUp.handleSettle`) -/

/-- JavaScript `String.prototype.trim()`: drop whitespace from both ends
(modelled structurally over the character list). -/
def jsTrim (s : String) : String :=
  String.mk (((s.data.dropWhile Char.isWhitespace).reverse.dropWhile
    Char.isWhitespace).reverse)

/-- The settle form state.  `selectedDebt` is `none` when no debt is chosen;
`settleAmount` is `none` when the amount string is empty and `some a` when it
parses to `a` (the string `"0"` is non-empty and parses to `0`, so it reaches
the explicit positivity check). -/
structure SettleForm where
  selectedDebt : Option Debt
  settleAmount : Option ℚ
  settleDescription : String
deriving DecidableEq

/-- The user-visible outcome of recording a settlement. -/
inductive SettleOutcome where
  | validationError
  | invalidAmount
  | storeError
  | success
deriving DecidableEq

/-- `SettleUp.handleSettle`: validation (all fields present, trimmed
description non-empty), then an explicit `amount <= 0` rejection, then a
single insert into `settlements`.  No `expense_participants` row is read or
written. -/
def handleSettle (s : AppState) (self : UserId) (f : SettleForm)
    (insertOk : Bool) : AppState × SettleOutcome :=
  match f.selectedDebt, f.settleAmount with
  | some debt, some amount =>
    if jsTrim f.settleDescription = "" then (s, .validationError)
    else if amount ≤ 0 then (s, .invalidAmount)
    else if !insertOk then (s, .storeError)
    else
      let row : Settlement :=
        { from_user := self
          to_user := debt.user_id
          amount := amount
          description := jsTrim f.settleDescription
          group_id := none }
      ({ s with settlements := s.settlements ++ [row] }, .success)
  | _, _ => (s, .validationError)

/-! ## Friend requests (`Friends.addFriend`) -/

/-- The user-visible outcome of an add-friend request. -/
inductive FriendOutcome where
  | validationError
  | userNotFound
  | selfFriend
  | alreadyFriends
  | storeError
  | success
deriving DecidableEq

/-- Supabase `.single()`: the row when the result set has exactly one row,
otherwise an error (the calling code reads the error as a `null` row). -/
def singleRow {α : Type} (l : List α) : Option α :=
  match l with
  | [x] => some x
  | _ => none

/-- Whether a friendship row links `a` and `b` in either direction; this is
the `or(and(user_id.eq.a,friend_id.eq.b),and(user_id.eq.b,friend_id.eq.a))`
filter of the duplicate check. -/
def linksPair (a b : UserId) (fr : Friendship) : Bool :=
  (decide (fr.user_id = a) && decide (fr.friend_id = b)) ||
  (decide (fr.user_id = b) && decide (fr.friend_id = a))

/-- `Friends.addFriend`: reject an empty (trimmed) email; look the target up
by email with `.single()`; reject self-friending; reject when the
either-direction duplicate check returns a row; otherwise insert one
`pending` row directed from the requester to the target. -/
def addFriend (s : AppState) (self : UserId) (emailInput : String)
    (insertOk : Bool) : AppState × FriendOutcome :=
  if jsTrim emailInput = "" then (s, .validationError)
  else
    match singleRow (s.profiles.filter (fun p => decide (p.email = jsTrim emailInput))) with
    | none => (s, .userNotFound)
    | some target =>
      if target.id = self then (s, .selfFriend)
      else
        match singleRow (s.friendships.filter (linksPair self target.id)) with
        | some _ => (s, .alreadyFriends)
        | none =>
          if !insertOk then (s, .storeError)
          else
            ({ s with friendships := s.friendships ++
                [{ user_id := self, friend_id := target.id, status := .pending }] },
             .success)

/-! ## General lemmas -/

/-- A left fold adding a projection of each row equals the initial value plus
the sum of the projected row list (the shape of the dashboard reductions). -/
theorem foldl_add_eq_sum {α : Type} (g : α → ℚ) (l : List α) (init : ℚ) :
    l.foldl (fun sum item => sum + g item) init = init + (l.map g).sum := by
  induction l generalizing init with
  | nil => simp
  | cons a t ih => simp [List.foldl_cons, ih (init + g a)]; ring

/-- The user ids of the participant rows built for an expense are exactly the
selected participant list. -/
theorem mkParticipantRows_user_ids (eid : ExpenseId) (ps : List UserId) (share : ℚ) :
    (mkParticipantRows eid ps share).map (fun r => r.user_id) = ps := by
  unfold mkParticipantRows
  rw [List.map_map]
  exact List.map_id ps

/-! ## Claim theorems -/

/-- **C1.** For every submitted expense with parsed amount `A` and a
non-empty, duplicate-free set of `N` selected participants, `handleSubmit`
computes the single per-person share `A / N` (one division, no remainder
redistribution), appends exactly one participant row per selected identity,
and every inserted row carries `amount_owed = A / N` and `is_settled = false`. -/
theorem expense_creation_equal_split (s : AppState) (self : UserId)
    (f : ExpenseForm) (newId : ExpenseId) (gid : GroupId) (amount : ℚ)
    (hg : f.selectedGroup = some gid) (ha : f.amount = some amount)
    (hd : ¬ f.description = "") (hp : ¬ f.selectedParticipants = [])
    (hnodup : f.selectedParticipants.Nodup) :
    (handleSubmit s self f newId true true).2 = SubmitOutcome.success ∧
    (handleSubmit s self f newId true true).1.participants
      = s.participants ++ mkParticipantRows newId f.selectedParticipants
          (amount / (f.selectedParticipants.length : ℚ)) ∧
    (∀ r ∈ mkParticipantRows newId f.selectedParticipants
        (amount / (f.selectedParticipants.length : ℚ)),
      r.amount_owed = amount / (f.selectedParticipants.length : ℚ) ∧ r.is_settled = false) ∧
    (∀ pid ∈ f.selectedParticipants,
      ((mkParticipantRows newId f.selectedParticipants
          (amount / (f.selectedParticipants.length : ℚ))).map
        (fun r => r.user_id)).count pid = 1) := by
  have hlen : f.selectedParticipants.length ≠ 0 := by
    simpa [List.length_eq_zero] using hp
  refine ⟨?_, ?_, ?_, ?_⟩
  · simp [handleSubmit, hg, ha, hlen, hd]
  · simp [handleSubmit, hg, ha, hlen, hd]
  · intro r hr
    simp [mkParticipantRows] at hr
    obtain ⟨pid, _, rfl⟩ := hr
    exact ⟨rfl, rfl⟩
  · intro pid hpid
    rw [mkParticipantRows_user_ids]
    exact List.count_eq_one_of_mem hnodup hpid

/-- An empty store state. -/
def emptyState : AppState := ⟨[], [], [], [], [], []⟩

/-- A concrete valid expense form: group 1, participants 1 and 2,
amount string parsing to 10. -/
def wExpenseForm : ExpenseForm := ⟨some 1, [1, 2], "dinner", some 10⟩

/-- Witness for `expense_creation_equal_split` at a concrete submission. -/
theorem expense_creation_equal_split_witness :
    (handleSubmit emptyState 1 wExpenseForm 1 true true).2 = SubmitOutcome.success ∧
    (handleSubmit emptyState 1 wExpenseForm 1 true true).1.participants
      = emptyState.participants ++ mkParticipantRows 1 wExpenseForm.selectedParticipants
          ((10 : ℚ) / (wExpenseForm.selectedParticipants.length : ℚ)) ∧
    (∀ r ∈ mkParticipantRows 1 wExpenseForm.selectedParticipants
        ((10 : ℚ) / (wExpenseForm.selectedParticipants.length : ℚ)),
      r.amount_owed = (10 : ℚ) / (wExpenseForm.selectedParticipants.length : ℚ) ∧
      r.is_settled = false) ∧
    (∀ pid ∈ wExpenseForm.selectedParticipants,
      ((mkParticipantRows 1 wExpenseForm.selectedParticipants
          ((10 : ℚ) / (wExpenseForm.selectedParticipants.length : ℚ))).map
        (fun r => r.user_id)).count pid = 1) :=
  expense_creation_equal_split emptyState 1 wExpenseForm 1 1 10 rfl rfl
    (by decide) (by decide) (by decide)

/-- **C6.** For every expense with amount `A` split `N` ways (`N ≥ 1`, the
selected participant list non-empty), each created participant row's
`amount_owed` equals `A / N`, and the sum of `amount_owed` over the created
rows equals `A` — in this exact-rational model the rounding error is zero, so
the sum matches within any epsilon proportional to `N`. -/
theorem split_sum_matches_amount (s : AppState) (self : UserId)
    (f : ExpenseForm) (newId : ExpenseId) (gid : GroupId) (amount : ℚ)
    (hg : f.selectedGroup = some gid) (ha : f.amount = some amount)
    (hd : ¬ f.description = "") (hp : ¬ f.selectedParticipants = []) :
    (handleSubmit s self f newId true true).1.participants
      = s.participants ++ mkParticipantRows newId f.selectedParticipants
          (amount / (f.selectedParticipants.length : ℚ)) ∧
    (∀ r ∈ mkParticipantRows newId f.selectedParticipants
        (amount / (f.selectedParticipants.length : ℚ)),
      r.amount_owed = amount / (f.selectedParticipants.length : ℚ)) ∧
    ((mkParticipantRows newId f.selectedParticipants
        (amount / (f.selectedParticipants.length : ℚ))).map
      (fun r => r.amount_owed)).sum = amount := by
  have hlen : f.selectedParticipants.length ≠ 0 := by
    simpa [List.length_eq_zero] using hp
  have hcast : (f.selectedParticipants.length : ℚ) ≠ 0 := by
    exact_mod_cast hlen
  refine ⟨?_, ?_, ?_⟩
  · simp [handleSubmit, hg, ha, hlen, hd]
  · intro r hr
    simp [mkParticipantRows] at hr
    obtain ⟨pid, _, rfl⟩ := hr
    rfl
  · have hmap : (mkParticipantRows newId f.selectedParticipants
        (amount / (f.selectedParticipants.length : ℚ))).map (fun r => r.amount_owed)
        = List.replicate f.selectedParticipants.length
            (amount / (f.selectedParticipants.length : ℚ)) := by
      unfold mkParticipantRows
      rw [List.map_map]
      exact List.map_const' f.selectedParticipants _
    rw [hmap, List.sum_replicate, nsmul_eq_mul]
    field_simp

/-- Witness for `split_sum_matches_amount`: splitting 10 between two
participants gives two rows of 5 summing back to 10. -/
theorem split_sum_matches_amount_witness :
    (handleSubmit emptyState 1 wExpenseForm 1 true true).1.participants
      = emptyState.participants ++ mkParticipantRows 1 wExpenseForm.selectedParticipants
          ((10 : ℚ) / (wExpenseForm.selectedParticipants.length : ℚ)) ∧
    (∀ r ∈ mkParticipantRows 1 wExpenseForm.selectedParticipants
        ((10 : ℚ) / (wExpenseForm.selectedParticipants.length : ℚ)),
      r.amount_owed = (10 : ℚ) / (wExpenseForm.selectedParticipants.length : ℚ)) ∧
    ((mkParticipantRows 1 wExpenseForm.selectedParticipants
        ((10 : ℚ) / (wExpenseForm.selectedParticipants.length : ℚ))).map
      (fun r => r.amount_owed)).sum = 10 :=
  split_sum_matches_amount emptyState 1 wExpenseForm 1 1 10 rfl rfl
    (by decide) (by decide)

/-- Whether a participant row joins to an expense paid by `self` himself. -/
def paidBySelf (es : List Expense) (self : UserId) (p : ExpenseParticipant) : Bool :=
  match findExpense es p.expense_id with
  | some e => decide (e.paid_by = self)
  | none => false

/-- The unsettled rows of a user split into rows whose expense was paid by
someone else and rows whose expense the user paid, when every row's expense
exists. -/
theorem owed_sum_split (es : List Expense) (u : UserId) (l : List ExpenseParticipant)
    (h : ∀ p ∈ l, (findExpense es p.expense_id).isSome) :
    ((l.filter (fun p => decide (p.user_id = u) && !p.is_settled)).map
        (fun p => p.amount_owed)).sum
    = ((l.filter (fun p => decide (p.user_id = u) && !p.is_settled &&
          paidBySomeoneElse es u p)).map (fun p => p.amount_owed)).sum
      + ((l.filter (fun p => decide (p.user_id = u) && !p.is_settled &&
          paidBySelf es u p)).map (fun p => p.amount_owed)).sum := by
  induction l with
  | nil => simp
  | cons p t ih =>
    have hp : (findExpense es p.expense_id).isSome := h p (List.mem_cons_self p t)
    have ht : ∀ q ∈ t, (findExpense es q.expense_id).isSome :=
      fun q hq => h q (List.mem_cons_of_mem p hq)
    obtain ⟨e, he⟩ := Option.isSome_iff_exists.mp hp
    by_cases hbase : (decide (p.user_id = u) && !p.is_settled) = true
    · by_cases hpaid : e.paid_by = u
      · have h1 : paidBySomeoneElse es u p = false := by
          simp [paidBySomeoneElse, he, hpaid]
        have h2 : paidBySelf es u p = true := by
          simp [paidBySelf, he, hpaid]
        simp [List.filter_cons, hbase, h1, h2, ih ht]
        ring
      · have h1 : paidBySomeoneElse es u p = true := by
          simp [paidBySomeoneElse, he, hpaid]
        have h2 : paidBySelf es u p = false := by
          simp [paidBySelf, he, hpaid]
        simp [List.filter_cons, hbase, h1, h2, ih ht]
        ring
    · simp [List.filter_cons, hbase, ih ht]

/-- Every element of the amounts of a row list with non-negative amounts has a
non-negative sum. -/
theorem filtered_amount_sum_nonneg (l : List ExpenseParticipant)
    (q : ExpenseParticipant → Bool)
    (h : ∀ p ∈ l, 0 ≤ p.amount_owed) :
    0 ≤ ((l.filter q).map (fun p => p.amount_owed)).sum := by
  apply List.sum_nonneg
  intro x hx
  simp only [List.mem_map] at hx
  obtain ⟨p, hp, rfl⟩ := hx
  exact h p (List.mem_filter.mp hp).1

/-- **C2.** For every user, the dashboard computes `total_owed` as the sum of
`amount_owed` over the user's unsettled participant rows, `total_owing` as the
same sum restricted to rows whose expense was paid by someone else, and
`net_balance = total_owed − total_owing`; when every row's `amount_owed` is
non-negative (the store's CHECK constraint), both sums are non-negative. -/
theorem dashboard_balance_formulas (s : AppState) (u : UserId)
    (h : ∀ p ∈ s.participants, 0 ≤ p.amount_owed) :
    net_balance s u = total_owed s u - total_owing s u ∧
    total_owed s u = ((s.participants.filter (fun p =>
        decide (p.user_id = u) && !p.is_settled)).map (fun p => p.amount_owed)).sum ∧
    total_owing s u = ((s.participants.filter (fun p =>
        decide (p.user_id = u) && !p.is_settled && paidBySomeoneElse s.expenses u p)).map
      (fun p => p.amount_owed)).sum ∧
    0 ≤ total_owed s u ∧ 0 ≤ total_owing s u := by
  have howed : total_owed s u = ((s.participants.filter (fun p =>
      decide (p.user_id = u) && !p.is_settled)).map (fun p => p.amount_owed)).sum := by
    unfold total_owed owedRows
    rw [foldl_add_eq_sum]
    ring
  have howing : total_owing s u = ((s.participants.filter (fun p =>
      decide (p.user_id = u) && !p.is_settled && paidBySomeoneElse s.expenses u p)).map
      (fun p => p.amount_owed)).sum := by
    unfold total_owing owingRows
    rw [foldl_add_eq_sum]
    ring
  refine ⟨rfl, howed, howing, ?_, ?_⟩
  · rw [howed]; exact filtered_amount_sum_nonneg _ _ h
  · rw [howing]; exact filtered_amount_sum_nonneg _ _ h

/-- A concrete store state for the dashboard witnesses: user 1 has an
unsettled share of 5 in an expense paid by user 2 and an unsettled share of 7
in an expense user 1 paid. -/
def wDashState : AppState :=
  ⟨[⟨1, "A", "a@x.com"⟩, ⟨2, "B", "b@x.com"⟩], [],
   [⟨1, "cab", 10, 2, none⟩, ⟨2, "food", 14, 1, none⟩],
   [⟨1, 1, 5, false⟩, ⟨2, 1, 7, false⟩], [], []⟩

/-- Witness for `dashboard_balance_formulas` at a concrete state. -/
theorem dashboard_balance_formulas_witness :
    net_balance wDashState 1 = total_owed wDashState 1 - total_owing wDashState 1 ∧
    total_owed wDashState 1 = ((wDashState.participants.filter (fun p =>
        decide (p.user_id = 1) && !p.is_settled)).map (fun p => p.amount_owed)).sum ∧
    total_owing wDashState 1 = ((wDashState.participants.filter (fun p =>
        decide (p.user_id = 1) && !p.is_settled &&
          paidBySomeoneElse wDashState.expenses 1 p)).map (fun p => p.amount_owed)).sum ∧
    0 ≤ total_owed wDashState 1 ∧ 0 ≤ total_owing wDashState 1 :=
  dashboard_balance_formulas wDashState 1 (by
    intro p hp
    simp [wDashState] at hp
    rcases hp with h | h <;> simp [h])

/-- **C10.** The `total_owed` dashboard query filters only on
`user_id = self` and `is_settled = false`, with no condition on the payer, so
every row counted into `total_owing` is also counted into `total_owed`.
Consequently (for states satisfying the store's constraints: non-negative
`amount_owed` and a parent expense for every participant row)
`total_owing ≤ total_owed`, `net_balance` equals the sum of the user's own
unsettled shares of expenses the user paid themselves, and `net_balance ≥ 0`. -/
theorem net_balance_self_paid (s : AppState) (u : UserId)
    (hnn : ∀ p ∈ s.participants, 0 ≤ p.amount_owed)
    (hri : ∀ p ∈ s.participants, (findExpense s.expenses p.expense_id).isSome) :
    total_owing s u ≤ total_owed s u ∧
    net_balance s u = ((s.participants.filter (fun p =>
        decide (p.user_id = u) && !p.is_settled && paidBySelf s.expenses u p)).map
      (fun p => p.amount_owed)).sum ∧
    0 ≤ net_balance s u := by
  have howed : total_owed s u = ((s.participants.filter (fun p =>
      decide (p.user_id = u) && !p.is_settled)).map (fun p => p.amount_owed)).sum := by
    unfold total_owed owedRows
    rw [foldl_add_eq_sum]
    ring
  have howing : total_owing s u = ((s.participants.filter (fun p =>
      decide (p.user_id = u) && !p.is_settled && paidBySomeoneElse s.expenses u p)).map
      (fun p => p.amount_owed)).sum := by
    unfold total_owing owingRows
    rw [foldl_add_eq_sum]
    ring
  have hsplit := owed_sum_split s.expenses u s.participants hri
  have hself : 0 ≤ ((s.participants.filter (fun p =>
      decide (p.user_id = u) && !p.is_settled && paidBySelf s.expenses u p)).map
      (fun p => p.amount_owed)).sum := filtered_amount_sum_nonneg _ _ hnn
  refine ⟨?_, ?_, ?_⟩
  · rw [howed, howing, hsplit]
    linarith
  · unfold net_balance
    rw [howed, howing, hsplit]
    ring
  · unfold net_balance
    rw [howed, howing, hsplit]
    linarith

/-- Witness for `net_balance_self_paid` at a concrete state. -/
theorem net_balance_self_paid_witness :
    total_owing wDashState 1 ≤ total_owed wDashState 1 ∧
    net_balance wDashState 1 = ((wDashState.participants.filter (fun p =>
        decide (p.user_id = 1) && !p.is_settled &&
          paidBySelf wDashState.expenses 1 p)).map (fun p => p.amount_owed)).sum ∧
    0 ≤ net_balance wDashState 1 :=
  net_balance_self_paid wDashState 1
    (by
      intro p hp
      simp [wDashState] at hp
      rcases hp with h | h <;> simp [h])
    (by
      intro p hp
      simp [wDashState] at hp
      rcases hp with h | h <;> simp [h, findExpense, wDashState, List.find?])

/-! ## Further helper lemmas -/

/-- `total_owed` as a sum over the filtered participant rows. -/
theorem total_owed_sum (s : AppState) (u : UserId) :
    total_owed s u = ((s.participants.filter (fun p =>
      decide (p.user_id = u) && !p.is_settled)).map (fun p => p.amount_owed)).sum := by
  unfold total_owed owedRows
  rw [foldl_add_eq_sum]
  ring

/-- `total_owing` as a sum over the filtered participant rows. -/
theorem total_owing_sum (s : AppState) (u : UserId) :
    total_owing s u = ((s.participants.filter (fun p =>
      decide (p.user_id = u) && !p.is_settled &&
        paidBySomeoneElse s.expenses u p)).map (fun p => p.amount_owed)).sum := by
  unfold total_owing owingRows
  rw [foldl_add_eq_sum]
  ring

/-- Filtering a list for one value yields as many elements as its count. -/
theorem filter_eq_length_count (ps : List UserId) (u : UserId) :
    (ps.filter (fun q => decide (q = u))).length = ps.count u := by
  induction ps with
  | nil => rfl
  | cons a t ih => by_cases h : a = u <;> simp [List.filter_cons, List.count_cons, h, ih]

/-- Appending an expense row with a different id does not change a lookup. -/
theorem findExpense_append_ne (es : List Expense) (e : Expense) (eid : ExpenseId)
    (h : e.id ≠ eid) : findExpense (es ++ [e]) eid = findExpense es eid := by
  unfold findExpense
  rw [List.find?_append]
  simp [List.find?, h]

/-- Looking up a freshly appended expense row by its id finds it. -/
theorem findExpense_append_self (es : List Expense) (e : Expense)
    (h : ∀ x ∈ es, x.id ≠ e.id) : findExpense (es ++ [e]) e.id = some e := by
  unfold findExpense
  rw [List.find?_append]
  have hnone : List.find? (fun x => decide (x.id = e.id)) es = none :=
    List.find?_eq_none.mpr (by intro x hx; simpa using h x hx)
  simp [hnone, List.find?]

/-- Filtering freshly created participant rows by user restricts the
participant list. -/
theorem mkRows_filter_user (eid : ExpenseId) (ps : List UserId) (share : ℚ) (u : UserId) :
    (mkParticipantRows eid ps share).filter (fun p => decide (p.user_id = u) && !p.is_settled)
      = mkParticipantRows eid (ps.filter (fun q => decide (q = u))) share := by
  induction ps with
  | nil => rfl
  | cons a t ih =>
    by_cases h : a = u <;> simp [mkParticipantRows, List.filter_cons, h] <;>
      simpa [mkParticipantRows] using ih

/-- The owed amounts of freshly created participant rows are all the share. -/
theorem mkRows_amounts (eid : ExpenseId) (ps : List UserId) (share : ℚ) :
    (mkParticipantRows eid ps share).map (fun r => r.amount_owed)
      = List.replicate ps.length share := by
  unfold mkParticipantRows
  rw [List.map_map]
  exact List.map_const' ps _

/-! ## Claim C3 -/

/-- A concrete form for the 300-split scenario: group 1, participants 1, 2
and 3 (including the payer, user 1), amount 300. -/
def wScenarioForm : ExpenseForm := ⟨some 1, [1, 2, 3], "trip", some 300⟩

/-- **C3, counterexample.** Starting from the empty state, creating an
expense of 300 split equally among participants 1, 2, 3 with payer 1 raises
the payer's dashboard `total_owed` from 0 to 100 — the payer's own share —
and not by 200 as the claim states. -/
theorem expense_300_scenario_cex :
    total_owed (handleSubmit emptyState 1 wScenarioForm 1 true true).1 1 = 100 ∧
    total_owed emptyState 1 = 0 ∧
    ¬ total_owed (handleSubmit emptyState 1 wScenarioForm 1 true true).1 1
        = total_owed emptyState 1 + 200 := by
  have h1 : total_owed (handleSubmit emptyState 1 wScenarioForm 1 true true).1 1 = 100 := by
    simp [total_owed, handleSubmit, emptyState, wScenarioForm, owedRows,
      mkParticipantRows, List.filter]
    norm_num
  have h0 : total_owed emptyState 1 = 0 := rfl
  refine ⟨h1, h0, ?_⟩
  rw [h1, h0]
  norm_num

/-- The expense row inserted in the 300-split scenario. -/
def scenarioExpense (newId : ExpenseId) (desc : String) (payer : UserId)
    (gid : GroupId) : Expense :=
  { id := newId, description := desc, amount := 300, paid_by := payer,
    group_id := some gid }

/-- **C3, amended.** Starting from any state in which the new expense id is
fresh, creating an expense of 300 split equally among 3 distinct participants
that include the payer gives each participant an `amount_owed` of 100,
increases the payer's dashboard `total_owed` by 100 — the payer's own share,
since the `total_owed` query counts only rows with `user_id = self` — and
leaves the payer's `total_owing` unchanged. -/
theorem expense_300_scenario (s : AppState) (payer : UserId) (ps : List UserId)
    (newId : ExpenseId) (gid : GroupId) (desc : String)
    (hdesc : ¬ desc = "") (hlen : ps.length = 3) (hmem : payer ∈ ps) (hnodup : ps.Nodup)
    (hfe : ∀ e ∈ s.expenses, e.id ≠ newId)
    (hfp : ∀ p ∈ s.participants, p.expense_id ≠ newId) :
    (∀ r ∈ mkParticipantRows newId ps ((300 : ℚ) / (ps.length : ℚ)),
      r.amount_owed = 100) ∧
    total_owed (handleSubmit s payer ⟨some gid, ps, desc, some 300⟩ newId true true).1 payer
      = total_owed s payer + 100 ∧
    total_owing (handleSubmit s payer ⟨some gid, ps, desc, some 300⟩ newId true true).1 payer
      = total_owing s payer := by
  have hlen0 : ps.length ≠ 0 := by rw [hlen]; simp
  have hshare : (300 : ℚ) / (ps.length : ℚ) = 100 := by rw [hlen]; norm_num
  have hparts : (handleSubmit s payer ⟨some gid, ps, desc, some 300⟩ newId true true).1.participants
      = s.participants ++ mkParticipantRows newId ps ((300 : ℚ) / (ps.length : ℚ)) := by
    simp [handleSubmit, hlen0, hdesc]
  have hexps : (handleSubmit s payer ⟨some gid, ps, desc, some 300⟩ newId true true).1.expenses
      = s.expenses ++ [scenarioExpense newId desc payer gid] := by
    simp [handleSubmit, hlen0, hdesc, scenarioExpense]
  refine ⟨?_, ?_, ?_⟩
  · intro r hr
    simp [mkParticipantRows] at hr
    obtain ⟨pid, hpid, rfl⟩ := hr
    simpa using hshare
  · rw [total_owed_sum, total_owed_sum, hparts, List.filter_append, List.map_append,
      List.sum_append, mkRows_filter_user, mkRows_amounts, List.sum_replicate,
      filter_eq_length_count, List.count_eq_one_of_mem hnodup hmem, hshare]
    simp
  · rw [total_owing_sum, total_owing_sum, hparts, hexps, List.filter_append]
    have hnew : (mkParticipantRows newId ps ((300 : ℚ) / (ps.length : ℚ))).filter
        (fun p => decide (p.user_id = payer) && !p.is_settled &&
          paidBySomeoneElse (s.expenses ++ [scenarioExpense newId desc payer gid]) payer p)
        = [] := by
      rw [List.filter_eq_nil_iff]
      intro r hr
      simp [mkParticipantRows] at hr
      obtain ⟨pid, hpid, rfl⟩ := hr
      by_cases hpp : pid = payer
      · subst hpp
        have hfind := findExpense_append_self s.expenses
          (scenarioExpense newId desc pid gid)
          (by intro x hx; simpa [scenarioExpense] using hfe x hx)
        simp [scenarioExpense] at hfind
        simp [paidBySomeoneElse, scenarioExpense, hfind]
      · simp [hpp]
    have hold : s.participants.filter
        (fun p => decide (p.user_id = payer) && !p.is_settled &&
          paidBySomeoneElse (s.expenses ++ [scenarioExpense newId desc payer gid]) payer p)
        = s.participants.filter
          (fun p => decide (p.user_id = payer) && !p.is_settled &&
            paidBySomeoneElse s.expenses payer p) := by
      apply List.filter_congr
      intro p hp
      have hne := findExpense_append_ne s.expenses
        (scenarioExpense newId desc payer gid) p.expense_id
        (by simpa [scenarioExpense] using (hfp p hp).symm)
      simp [paidBySomeoneElse, hne]
    rw [hnew, hold]
    simp

/-- Witness for `expense_300_scenario` starting from the empty state. -/
theorem expense_300_scenario_witness :
    (∀ r ∈ mkParticipantRows 1 [1, 2, 3] ((300 : ℚ) / (([1, 2, 3] : List UserId).length : ℚ)),
      r.amount_owed = 100) ∧
    total_owed (handleSubmit emptyState 1 ⟨some 1, [1, 2, 3], "trip", some 300⟩ 1 true true).1 1
      = total_owed emptyState 1 + 100 ∧
    total_owing (handleSubmit emptyState 1 ⟨some 1, [1, 2, 3], "trip", some 300⟩ 1 true true).1 1
      = total_owing emptyState 1 :=
  expense_300_scenario emptyState 1 [1, 2, 3] 1 1 "trip" (by decide) rfl
    (by decide) (by decide) (by simp [emptyState]) (by simp [emptyState])

/-! ## Claim C5 -/

/-- **C5.** Recording a settlement only appends one `Settlement` row: it
modifies no `ExpenseParticipant` row (in particular no `is_settled` flag) and
no expense row, so every user's unsettled-row-derived dashboard totals
(`total_owed`, `total_owing`, `net_balance`) are identical before and after
the settlement is recorded. -/
theorem settlement_frame (s : AppState) (self : UserId) (f : SettleForm)
    (debt : Debt) (amount : ℚ)
    (hd : f.selectedDebt = some debt) (ha : f.settleAmount = some amount)
    (hdesc : ¬ jsTrim f.settleDescription = "") (hpos : 0 < amount) :
    (handleSettle s self f true).2 = SettleOutcome.success ∧
    (handleSettle s self f true).1.settlements
      = s.settlements ++ [⟨self, debt.user_id, amount, jsTrim f.settleDescription, none⟩] ∧
    (handleSettle s self f true).1.participants = s.participants ∧
    (handleSettle s self f true).1.expenses = s.expenses ∧
    (∀ u : UserId,
      total_owed (handleSettle s self f true).1 u = total_owed s u ∧
      total_owing (handleSettle s self f true).1 u = total_owing s u ∧
      net_balance (handleSettle s self f true).1 u = net_balance s u) := by
  have hns : ¬ amount ≤ 0 := not_le.mpr hpos
  refine ⟨?_, ?_, ?_, ?_, ?_⟩ <;>
    simp [handleSettle, hd, ha, hdesc, hns, total_owed, total_owing, net_balance,
      owedRows, owingRows]

/-- A concrete valid settle form towards user 2. -/
def wSettleForm : SettleForm := ⟨some ⟨2, "B", "b@x.com", -5, none⟩, some 5, "cash"⟩

/-- Witness for `settlement_frame` at a concrete settlement. -/
theorem settlement_frame_witness :
    (handleSettle wDashState 1 wSettleForm true).2 = SettleOutcome.success ∧
    (handleSettle wDashState 1 wSettleForm true).1.settlements
      = wDashState.settlements ++ [⟨1, 2, 5, jsTrim "cash", none⟩] ∧
    (handleSettle wDashState 1 wSettleForm true).1.participants = wDashState.participants ∧
    (handleSettle wDashState 1 wSettleForm true).1.expenses = wDashState.expenses ∧
    (∀ u : UserId,
      total_owed (handleSettle wDashState 1 wSettleForm true).1 u = total_owed wDashState u ∧
      total_owing (handleSettle wDashState 1 wSettleForm true).1 u = total_owing wDashState u ∧
      net_balance (handleSettle wDashState 1 wSettleForm true).1 u = net_balance wDashState u) :=
  settlement_frame wDashState 1 wSettleForm ⟨2, "B", "b@x.com", -5, none⟩ 5
    rfl rfl (by decide) (by norm_num)

/-! ## Claim C7 -/

/-- **C7.** Expense creation is not atomic: when the expense-row insert
succeeds and the participant-rows insert fails, the outcome is a reported
store error, the expense row stays inserted, and no participant row for the
new expense exists — no compensating action removes the expense row. -/
theorem expense_creation_not_atomic (s : AppState) (self : UserId)
    (f : ExpenseForm) (newId : ExpenseId) (gid : GroupId) (amount : ℚ)
    (hg : f.selectedGroup = some gid) (ha : f.amount = some amount)
    (hd : ¬ f.description = "") (hp : ¬ f.selectedParticipants = [])
    (hfp : ∀ p ∈ s.participants, p.expense_id ≠ newId) :
    (handleSubmit s self f newId true false).2 = SubmitOutcome.storeError ∧
    (handleSubmit s self f newId true false).1.expenses
      = s.expenses ++ [⟨newId, f.description, amount, self, some gid⟩] ∧
    (handleSubmit s self f newId true false).1.participants = s.participants ∧
    (handleSubmit s self f newId true false).1.participants.filter
      (fun p => decide (p.expense_id = newId)) = [] := by
  have hlen : f.selectedParticipants.length ≠ 0 := by
    simpa [List.length_eq_zero] using hp
  refine ⟨?_, ?_, ?_, ?_⟩
  · simp [handleSubmit, hg, ha, hlen, hd]
  · simp [handleSubmit, hg, ha, hlen, hd]
  · simp [handleSubmit, hg, ha, hlen, hd]
  · have hres : (handleSubmit s self f newId true false).1.participants = s.participants := by
      simp [handleSubmit, hg, ha, hlen, hd]
    rw [hres, List.filter_eq_nil_iff]
    intro p hp'
    simpa using hfp p hp'

/-- Witness for `expense_creation_not_atomic` at a concrete failed
submission. -/
theorem expense_creation_not_atomic_witness :
    (handleSubmit emptyState 1 wExpenseForm 1 true false).2 = SubmitOutcome.storeError ∧
    (handleSubmit emptyState 1 wExpenseForm 1 true false).1.expenses
      = emptyState.expenses ++ [⟨1, "dinner", 10, 1, some 1⟩] ∧
    (handleSubmit emptyState 1 wExpenseForm 1 true false).1.participants
      = emptyState.participants ∧
    (handleSubmit emptyState 1 wExpenseForm 1 true false).1.participants.filter
      (fun p => decide (p.expense_id = 1)) = [] :=
  expense_creation_not_atomic emptyState 1 wExpenseForm 1 1 10 rfl rfl
    (by decide) (by decide) (by simp [emptyState])

/-! ## Claim C8 -/

/-- **C8, counterexample.** A submitted expense whose parsed amount is `0`
(the non-empty amount string `"0"`, so `≤ 0`) passes the client-side
validation, and the insert is issued: starting from the empty state the
submission succeeds and writes an expense row with amount 0.  The expense
path has no client-side positivity check. -/
theorem validation_before_write_cex :
    (0 : ℚ) ≤ 0 ∧
    (handleSubmit emptyState 1 ⟨some 1, [1], "x", some 0⟩ 1 true true).2
      = SubmitOutcome.success ∧
    (handleSubmit emptyState 1 ⟨some 1, [1], "x", some 0⟩ 1 true true).1.expenses
      = [⟨1, "x", 0, 1, some 1⟩] := by
  refine ⟨le_refl 0, ?_, ?_⟩ <;> simp [handleSubmit, emptyState, mkParticipantRows]

/-- **C8, amended.** Missing required fields are rejected before any write on
both the expense and the settlement paths, and the settlement path
additionally rejects a non-positive amount before any write; the expense
path performs no positivity check (see `validation_before_write_cex`). -/
theorem validation_before_write :
    (∀ (s : AppState) (self : UserId) (f : ExpenseForm) (newId : ExpenseId) (o1 o2 : Bool),
      f.selectedGroup = none ∨ f.amount = none ∨ f.selectedParticipants = [] ∨
        f.description = "" →
      handleSubmit s self f newId o1 o2 = (s, SubmitOutcome.validationError)) ∧
    (∀ (s : AppState) (self : UserId) (f : SettleForm) (o : Bool),
      f.selectedDebt = none ∨ f.settleAmount = none ∨ jsTrim f.settleDescription = "" →
      handleSettle s self f o = (s, SettleOutcome.validationError)) ∧
    (∀ (s : AppState) (self : UserId) (f : SettleForm) (o : Bool) (debt : Debt) (amount : ℚ),
      f.selectedDebt = some debt → f.settleAmount = some amount →
      amount ≤ 0 → ¬ jsTrim f.settleDescription = "" →
      handleSettle s self f o = (s, SettleOutcome.invalidAmount)) := by
  refine ⟨?_, ?_, ?_⟩
  · rintro s self ⟨g, ps, d, a⟩ newId o1 o2 h
    rcases g with _ | g
    · simp [handleSubmit]
    · rcases a with _ | a
      · simp [handleSubmit]
      · rcases h with h | h | h | h
        · exact absurd h (by simp)
        · exact absurd h (by simp)
        · simp at h
          simp [handleSubmit, h]
        · simp at h ⊢
          simp [handleSubmit, h]
  · rintro s self ⟨sd, sa, desc⟩ o h
    rcases sd with _ | sd
    · simp [handleSettle]
    · rcases sa with _ | sa
      · simp [handleSettle]
      · rcases h with h | h | h
        · exact absurd h (by simp)
        · exact absurd h (by simp)
        · simp at h
          simp [handleSettle, h]
  · rintro s self ⟨sd, sa, desc⟩ o debt amount hd ha hle hdesc
    simp at hd ha
    subst hd
    subst ha
    simp at hdesc
    simp [handleSettle, hdesc, hle]

/-- Witness for `validation_before_write`: all three rejection branches at
concrete inputs. -/
theorem validation_before_write_witness :
    handleSubmit emptyState 1 ⟨none, [1], "x", some 5⟩ 1 true true
      = (emptyState, SubmitOutcome.validationError) ∧
    handleSettle emptyState 1 ⟨none, some 5, "cash"⟩ true
      = (emptyState, SettleOutcome.validationError) ∧
    handleSettle emptyState 1 ⟨some ⟨2, "B", "b@x.com", -5, none⟩, some 0, "cash"⟩ true
      = (emptyState, SettleOutcome.invalidAmount) :=
  ⟨validation_before_write.1 emptyState 1 ⟨none, [1], "x", some 5⟩ 1 true true (Or.inl rfl),
   validation_before_write.2.1 emptyState 1 ⟨none, some 5, "cash"⟩ true (Or.inl rfl),
   validation_before_write.2.2 emptyState 1 ⟨some ⟨2, "B", "b@x.com", -5, none⟩, some 0, "cash"⟩
     true ⟨2, "B", "b@x.com", -5, none⟩ 0 rfl rfl (le_refl 0) (by decide)⟩

/-! ## Claim C4 -/

/-- A state with one unsettled debt: user 1 owes `y` on an expense paid by
user 2. -/
def oneDebtState (y : ℚ) : AppState :=
  ⟨[⟨1, "A", "a@x.com"⟩, ⟨2, "B", "b@x.com"⟩], [],
   [⟨1, "lunch", y, 2, none⟩], [⟨1, 1, y, false⟩], [], []⟩

/-- A state with one unsettled credit: user 2 owes `x` on an expense paid by
user 1. -/
def oneCreditState (x : ℚ) : AppState :=
  ⟨[⟨1, "A", "a@x.com"⟩, ⟨2, "B", "b@x.com"⟩], [],
   [⟨1, "lunch", x, 1, none⟩], [⟨1, 2, x, false⟩], [], []⟩

/-- A state with two opposite debts of equal magnitude `x` between users 1
and 2. -/
def pairDebtState (x : ℚ) : AppState :=
  ⟨[⟨1, "A", "a@x.com"⟩, ⟨2, "B", "b@x.com"⟩], [],
   [⟨1, "lunch", x, 2, none⟩, ⟨2, "taxi", x, 1, none⟩],
   [⟨1, 1, x, false⟩, ⟨2, 2, x, false⟩], [], []⟩

/-- **C4, counterexample.** In a state whose only unsettled row is a debt of
50 that user 1 owes to user 2, the settle-up list for user 1 holds the single
entry `+50` for user 2: the pass over debts the user owes contributes
*positive* amounts, not negative ones as the claim states (the code negates
the other pass, the debts owed *to* the user). -/
theorem settleup_sign_cex :
    fetchDebts (oneDebtState 50) 1 = [⟨2, "B", "b@x.com", 50, none⟩] ∧
    ¬ (∀ d ∈ fetchDebts (oneDebtState 50) 1, d.amount < 0) := by
  have h : fetchDebts (oneDebtState 50) 1 = [⟨2, "B", "b@x.com", 50, none⟩] := by
    simp [fetchDebts, oneDebtState, updateDebtMap, groupNameOf, findExpense,
      List.filter, List.foldl, List.find?]
  refine ⟨h, ?_⟩
  intro hall
  rw [h] at hall
  have h2 := hall ⟨2, "B", "b@x.com", 50, none⟩ (by simp)
  norm_num at h2

/-- **C4, amended.** The settle-up computation builds a per-counterparty
signed net by two passes — contributing a *positive* amount for each debt the
current user owes to others and a *negative* amount for each debt owed to the
user — summing contributions per counterparty; the resulting list contains no
entry whose net is exactly zero, and two opposite debts of equal magnitude
between the same pair of users produce no entry. -/
theorem settleup_netting :
    (∀ (s : AppState) (u : UserId), ∀ d ∈ fetchDebts s u, d.amount ≠ 0) ∧
    (∀ y : ℚ, 0 < y →
      fetchDebts (oneDebtState y) 1 = [⟨2, "B", "b@x.com", y, none⟩]) ∧
    (∀ x : ℚ, 0 < x →
      fetchDebts (oneCreditState x) 1 = [⟨2, "B", "b@x.com", -x, none⟩]) ∧
    (∀ x : ℚ, fetchDebts (pairDebtState x) 1 = []) := by
  refine ⟨?_, ?_, ?_, ?_⟩
  · intro s u d hd
    simp only [fetchDebts] at hd
    have := (List.mem_filter.mp hd).2
    simpa using this
  · intro y hy
    simp [fetchDebts, oneDebtState, updateDebtMap, groupNameOf, findExpense,
      List.filter, List.foldl, List.find?, hy.ne']
  · intro x hx
    simp [fetchDebts, oneCreditState, updateDebtMap, groupNameOf, findExpense,
      List.filter, List.foldl, List.find?, hx.ne']
  · intro x
    simp [fetchDebts, pairDebtState, updateDebtMap, groupNameOf, findExpense,
      List.filter, List.foldl, List.find?]

/-- Witness for `settleup_netting` at magnitude 50. -/
theorem settleup_netting_witness :
    ((⟨2, "B", "b@x.com", (50 : ℚ), none⟩ : Debt).amount ≠ 0) ∧
    fetchDebts (oneDebtState 50) 1 = [⟨2, "B", "b@x.com", 50, none⟩] ∧
    fetchDebts (oneCreditState 50) 1 = [⟨2, "B", "b@x.com", -50, none⟩] ∧
    fetchDebts (pairDebtState 50) 1 = [] := by
  have hb := settleup_netting.2.1 50 (by norm_num)
  refine ⟨?_, hb, settleup_netting.2.2.1 50 (by norm_num), settleup_netting.2.2.2 50⟩
  exact settleup_netting.1 (oneDebtState 50) 1 _ (by rw [hb]; simp)

/-! ## Claim C9 -/

/-- **C9.** An add-friend request looks the target profile up by (trimmed)
email; it rejects the request without inserting anything when the target is
the requesting user, or when a friendship row between the two users already
exists in either direction (the store keeps at most one row per pair, the
`(user_id, friend_id)` uniqueness with one directed row per relation);
otherwise it inserts exactly one row with status `pending`. -/
theorem add_friend_rules (s : AppState) (self : UserId) (email : String) (target : Profile)
    (hemail : ¬ jsTrim email = "")
    (hlookup : s.profiles.filter (fun p => decide (p.email = jsTrim email)) = [target])
    (hpair : (s.friendships.filter (linksPair self target.id)).length ≤ 1) :
    (target.id = self → addFriend s self email true = (s, FriendOutcome.selfFriend)) ∧
    (¬ target.id = self →
      (∃ fr ∈ s.friendships, linksPair self target.id fr = true) →
      addFriend s self email true = (s, FriendOutcome.alreadyFriends)) ∧
    (¬ target.id = self →
      (¬ ∃ fr ∈ s.friendships, linksPair self target.id fr = true) →
      addFriend s self email true
        = ({ s with friendships := s.friendships ++
              [⟨self, target.id, FriendStatus.pending⟩] },
           FriendOutcome.success)) := by
  refine ⟨?_, ?_, ?_⟩
  · intro hself
    simp [addFriend, hemail, hlookup, singleRow, hself]
  · intro hself hex
    obtain ⟨fr, hfr, hlink⟩ := hex
    have hmem : fr ∈ s.friendships.filter (linksPair self target.id) :=
      List.mem_filter.mpr ⟨hfr, hlink⟩
    have hlen1 : (s.friendships.filter (linksPair self target.id)).length = 1 := by
      have : 0 < (s.friendships.filter (linksPair self target.id)).length :=
        List.length_pos_of_mem hmem
      omega
    obtain ⟨x, hx⟩ := List.length_eq_one.mp hlen1
    simp [addFriend, hemail, hlookup, singleRow, hself, hx]
  · intro hself hnex
    have hnil : s.friendships.filter (linksPair self target.id) = [] := by
      rw [List.filter_eq_nil_iff]
      intro fr hfr
      exact fun hl => hnex ⟨fr, hfr, hl⟩
    simp [addFriend, hemail, hlookup, singleRow, hself, hnil]

/-- Two profiles, no friendships. -/
def wFriendStateA : AppState :=
  ⟨[⟨1, "A", "a@x.com"⟩, ⟨2, "B", "b@x.com"⟩], [], [], [], [], []⟩

/-- Two profiles with an existing friendship row directed from 2 to 1. -/
def wFriendStateB : AppState :=
  ⟨[⟨1, "A", "a@x.com"⟩, ⟨2, "B", "b@x.com"⟩], [], [], [], [],
   [⟨2, 1, FriendStatus.pending⟩]⟩

/-- Witness for `add_friend_rules`: the three branches at concrete states —
self-friending rejected, a reverse-direction duplicate rejected, and a fresh
request inserting one `pending` row. -/
theorem add_friend_rules_witness :
    addFriend wFriendStateA 1 "a@x.com" true = (wFriendStateA, FriendOutcome.selfFriend) ∧
    addFriend wFriendStateB 1 "b@x.com" true = (wFriendStateB, FriendOutcome.alreadyFriends) ∧
    addFriend wFriendStateA 1 "b@x.com" true
      = ({ wFriendStateA with friendships := wFriendStateA.friendships ++
            [⟨1, 2, FriendStatus.pending⟩] }, FriendOutcome.success) :=
  ⟨(add_friend_rules wFriendStateA 1 "a@x.com" ⟨1, "A", "a@x.com"⟩
      (by decide) (by decide) (by decide)).1 rfl,
   (add_friend_rules wFriendStateB 1 "b@x.com" ⟨2, "B", "b@x.com"⟩
      (by decide) (by decide) (by decide)).2.1 (by decide)
      ⟨⟨2, 1, FriendStatus.pending⟩, by simp [wFriendStateB], by decide⟩,
   (add_friend_rules wFriendStateA 1 "b@x.com" ⟨2, "B", "b@x.com"⟩
      (by decide) (by decide) (by decide)).2.2 (by decide) (by simp [wFriendStateA])⟩
